import Mathlib

/-!
Verification of the bootstrap and extension layer in `fastapi/fastapi.py`.

The source is a Flask application module.  Pure values (configuration maps,
log lines, traces) are embedded directly; the mutation of the process-wide
`app` singleton performed by the `init_*` functions is embedded as explicit
state passing over `AppState`; Python exceptions are embedded as `Except`.
Each embedded function carries a comment pointing at the source lines it
translates.  Parts of the repository that are imported by the source file but
are not in the source tree (the `fastapi.config` module, the error-handler
functions, the `fastapi.api` package) are modelled from the spec and marked
as such.  Third-party collaborators (Flask's blueprint registry and error
dispatch, SQLAlchemy's cursor-event dispatch, the `with` statement) are
modelled at their documented boundary.
-/

/-- A configuration value, as stored in `app.config`. -/
inductive Value where
  | str (s : String)
  | bool (b : Bool)
  | int (n : Int)
deriving DecidableEq, Repr

/-- Python truthiness of a configuration value (`if not enable_sentry`). -/
def truthy : Value → Bool
  | .str s => s != ""
  | .bool b => b
  | .int n => n != 0

/-- Python `str()` rendering of a configuration / parameter value. -/
def pyStr : Value → String
  | .str s => s
  | .bool b => if b then "True" else "False"
  | .int n => toString n

/-- `app.config`: a flat mapping from option name to value. -/
abbrev ConfigMap := List (String × Value)

/-- `config.get(key)` / `config[key]` lookup (first binding wins). -/
def configGet (c : ConfigMap) (k : String) : Option Value :=
  match c.find? (fun p => p.1 == k) with
  | some p => some p.2
  | none => none

/-- `config.get(key, default)`. -/
def configGetD (c : ConfigMap) (k : String) (d : Value) : Value :=
  (configGet c k).getD d

/-- Modelled from the spec: the configuration profile selected by `"dev"`.
The module `fastapi.config` is imported by the source file but is not in the
source tree; the spec says each profile holds the options the later steps
read (log path, file name, level; Sentry settings optional). -/
def devConfig : ConfigMap :=
  [("LOG_PATH", .str "logs"), ("LOG_FILENAME", .str "fastapi.log"),
   ("LOG_LEVEL", .str "debug"), ("SENTRY_DSN", .str "dev-dsn")]

/-- Modelled from the spec: the configuration profile selected by `"prod"`. -/
def prodConfig : ConfigMap :=
  [("LOG_PATH", .str "logs"), ("LOG_FILENAME", .str "fastapi.log"),
   ("LOG_LEVEL", .str "info"), ("ENABLE_SENTRY", .bool true),
   ("SENTRY_DSN", .str "prod-dsn")]

/-- Modelled from the spec: the configuration profile selected by `"test"`. -/
def testConfig : ConfigMap :=
  [("LOG_PATH", .str "logs"), ("LOG_FILENAME", .str "fastapi.log"),
   ("LOG_LEVEL", .str "debug")]

/-- Modelled from the spec: the `config` dictionary of `fastapi.config`,
keyed by the environment discriminator.  The spec fixes the closed profile
set `dev` / `prod` / `test`; an unknown key is absent (Python raises
`KeyError` on subscription, embedded as `none` here and turned into a fault
by `init_config`). -/
def config (m : String) : Option ConfigMap :=
  if m = "dev" then some devConfig
  else if m = "prod" then some prodConfig
  else if m = "test" then some testConfig
  else none

/-- Log severities of the `logging` module. -/
inductive Level where
  | debug
  | info
  | warning
  | errorLevel
  | critical
deriving DecidableEq, Repr

/-- The bootstrap steps of `init_app` (source lines 159-172), used to record
the order in which the steps complete. -/
inductive Step where
  | config
  | logger
  | error_handlers
  | hooks
  | db
  | redis
  | sentry
  | celery
  | limiter
  | cache
  | blueprints
  | signals
deriving DecidableEq, BEq, Repr

/-- Keys under which `app.register_error_handler` registers a handler:
an HTTP status code or the `APIError` exception class. -/
inductive HandlerKey where
  | httpCode (n : Nat)
  | apiExc
deriving DecidableEq, Repr

/-- A Flask blueprint as far as registration is concerned: its name and its
url prefix (field `urlPref` embeds `url_prefix`). -/
structure Blueprint where
  name : String
  urlPref : Option String
deriving DecidableEq, Repr

/-- A module found under `fastapi.api`: its dotted name and, when it exposes
the routable capability (`hasattr(module, 'bp')`), its blueprint. -/
structure PyModule where
  name : String
  bp : Option Blueprint
deriving DecidableEq, Repr

/-- A Python exception aborting a bootstrap step. -/
inductive Fault where
  | keyError (k : String)
  | configKeyMissing
  | blueprintNameCollision (n : String)
deriving DecidableEq, Repr

/-- The process-wide state mutated by the bootstrap: the `app` singleton's
configuration, logger, handler registrations, the other global extension
objects, the emitted log lines and the trace of completed steps. -/
structure AppState where
  config : ConfigMap := []
  logger_initialized : Bool := false
  error_handlers : List HandlerKey := []
  before_hooks : List String := []
  after_hooks : List String := []
  db_initialized : Bool := false
  redis_initialized : Bool := false
  sentry : Option (Option Value) := none
  celery_conf : ConfigMap := []
  celery_task_wrapped : Bool := false
  limiter_initialized : Bool := false
  cache_initialized : Bool := false
  blueprints : List Blueprint := []
  signals_registered : Bool := false
  log : List (Level × String) := []
  trace : List Step := []
deriving DecidableEq, Repr

/-- The state before `init_app` runs. -/
def initialState : AppState := {}

/-- Source lines 35-37: `run_mode = os.environ.get('FASTAPI_MODE', 'dev')`
then `app.config.from_object(config[run_mode])`.  The environment variable is
the only one the module reads, passed here as `env`.  Subscripting the
`config` dictionary with an unknown key raises `KeyError` before anything is
mutated. -/
def init_config (env : Option String) (st : AppState) : Except Fault AppState :=
  let run_mode := env.getD "dev"
  match config run_mode with
  | none => .error (.keyError run_mode)
  | some c => .ok { st with config := c, trace := st.trace ++ [.config] }

/-- Source lines 40-68: `init_logger` reads `LOG_PATH`, `LOG_FILENAME` and
`LOG_LEVEL` from the configuration, installs two handlers on `app.logger`
and logs an info line.  Filesystem effects (directory creation, file
handlers) are outside the model; a missing configuration key raises. -/
def init_logger (st : AppState) : Except Fault AppState :=
  match configGet st.config "LOG_PATH", configGet st.config "LOG_FILENAME",
        configGet st.config "LOG_LEVEL" with
  | some _, some _, some _ =>
      .ok { st with logger_initialized := true,
                    log := st.log ++ [(Level.info, "初始化日志成功")],
                    trace := st.trace ++ [.logger] }
  | _, _, _ => .error .configKeyMissing

/-- Source lines 110-113: registers handlers for 404, 429 and `APIError`,
and nothing else. -/
def init_error_handlers (st : AppState) : Except Fault AppState :=
  .ok { st with error_handlers :=
                  st.error_handlers ++ [.httpCode 404, .httpCode 429, .apiExc],
                trace := st.trace ++ [.error_handlers] }

/-- Source lines 116-118: appends the before- and after-request handlers. -/
def init_hooks (st : AppState) : Except Fault AppState :=
  .ok { st with before_hooks := st.before_hooks ++ ["before_request_handler"],
                after_hooks := st.after_hooks ++ ["after_request_handler"],
                trace := st.trace ++ [.hooks] }

/-- Source lines 93-95: `db.init_app(app)` then an info log line. -/
def init_db (st : AppState) : Except Fault AppState :=
  .ok { st with db_initialized := true,
                log := st.log ++ [(Level.info, "初始化db成功")],
                trace := st.trace ++ [.db] }

/-- Source lines 97-99: `init_redis_client(app)` then an info log line. -/
def init_redis (st : AppState) : Except Fault AppState :=
  .ok { st with redis_initialized := true,
                log := st.log ++ [(Level.info, "初始化Redis成功")],
                trace := st.trace ++ [.redis] }

/-- Source lines 121-127: reads `ENABLE_SENTRY` with default `False`; the
`if not enable_sentry:` branch contains only `pass`, so the flag has no
effect, and `Sentry(app, dsn=app.config.get('SENTRY_DSN'))` is invoked
unconditionally.  The `sentry` field records that invocation and the dsn it
received. -/
def init_sentry (st : AppState) : Except Fault AppState :=
  let enable_sentry := truthy (configGetD st.config "ENABLE_SENTRY" (.bool false))
  let st1 := if enable_sentry then st else st
  .ok { st1 with sentry := some (configGet st1.config "SENTRY_DSN"),
                 log := st1.log ++ [(Level.info, "初始化Sentry成功")],
                 trace := st1.trace ++ [.sentry] }

/-- Source lines 130-142: `celery.conf.update(app.config)`, then `celery.Task`
is replaced by the context-restoring `ContextTask` subclass (whose call
behaviour is embedded separately as `ContextTask_call`). -/
def init_celery (st : AppState) : Except Fault AppState :=
  .ok { st with celery_conf := st.config,
                celery_task_wrapped := true,
                log := st.log ++ [(Level.info, "初始化celery成功")],
                trace := st.trace ++ [.celery] }

/-- Source lines 146-147: `limiter.init_app(app)` (no log line). -/
def init_limiter (st : AppState) : Except Fault AppState :=
  .ok { st with limiter_initialized := true, trace := st.trace ++ [.limiter] }

/-- Source lines 150-151: `cache.init_app(app)` (no log line). -/
def init_cache (st : AppState) : Except Fault AppState :=
  .ok { st with cache_initialized := true, trace := st.trace ++ [.cache] }

/-- Flask's `app.register_blueprint` at its boundary: it rejects a second,
distinct blueprint registered under an already-used blueprint *name*, and
otherwise appends the blueprint to the app's registry.  It does not inspect
the url prefix: two distinct blueprints sharing a prefix both register. -/
def register_blueprint (st : AppState) (b : Blueprint) : Except Fault AppState :=
  if st.blueprints.any (fun b2 => b2.name == b.name) then
    .error (.blueprintNameCollision b.name)
  else
    .ok { st with blueprints := st.blueprints ++ [b] }

/-- The loop body of source lines 104-107: for each discovered module,
register its blueprint when it has one (`hasattr(module, 'bp')`), otherwise
skip it silently. -/
def registerAll (mods : List PyModule) (st : AppState) : Except Fault AppState :=
  match mods with
  | [] => .ok st
  | m :: rest =>
      match m.bp with
      | none => registerAll rest st
      | some b =>
          match register_blueprint st b with
          | .ok st1 => registerAll rest st1
          | .error e => .error e

/-- Source lines 102-107: `find_modules('fastapi.api', recursive=True)`
enumerates the modules of the `fastapi.api` package (a package of this
repository that is not in the source tree, so the discovered module list is
a parameter), then each module exposing `bp` is registered. -/
def register_blueprints (mods : List PyModule) (st : AppState) : Except Fault AppState :=
  match registerAll mods st with
  | .ok st1 => .ok { st1 with trace := st1.trace ++ [.blueprints] }
  | .error e => .error e

/-- Source lines 154-156: imports `fastapi.signals` and registers the signal
handlers (that module is not in the source tree; only the completed step is
recorded). -/
def register_signal_handlers (st : AppState) : Except Fault AppState :=
  .ok { st with signals_registered := true, trace := st.trace ++ [.signals] }

/-- Runs bootstrap steps in sequence.  A raised fault aborts the sequence;
the state mutated by the steps already completed persists (the Python
exception propagates out of `init_app`, leaving the module-level singletons
as they were at the failure point). -/
def runSteps (fs : List (AppState → Except Fault AppState)) (st : AppState) :
    AppState × Option Fault :=
  match fs with
  | [] => (st, none)
  | f :: rest =>
      match f st with
      | .ok st1 => runSteps rest st1
      | .error e => (st, some e)

/-- The step sequence of `init_app` (source lines 159-172), in source
order. -/
def bootSteps (env : Option String) (mods : List PyModule) :
    List (AppState → Except Fault AppState) :=
  [init_config env, init_logger, init_error_handlers, init_hooks, init_db,
   init_redis, init_sentry, init_celery, init_limiter, init_cache,
   register_blueprints mods, register_signal_handlers]

/-- Source lines 159-172: `init_app`, parameterised by the `FASTAPI_MODE`
environment variable and the module list that `find_modules` would return.
Returns the final state and the fault that aborted the bootstrap, if any. -/
def init_app (env : Option String) (mods : List PyModule) : AppState × Option Fault :=
  runSteps (bootSteps env mods) initialState

/-- The order in which the twelve steps of `init_app` complete on a
successful bootstrap. -/
def fullBootOrder : List Step :=
  [.config, .logger, .error_handlers, .hooks, .db, .redis, .sentry, .celery,
   .limiter, .cache, .blueprints, .signals]

/-- The handler key list registered by `init_error_handlers` on the fresh
app. -/
def registeredHandlerKeys : List HandlerKey :=
  match init_error_handlers initialState with
  | .ok st => st.error_handlers
  | .error _ => []

/-- Modelled from the spec: `APIError` of `fastapi.utils.error` is not in the
source tree; the spec describes an ApplicationError as a status/code/message
triple. -/
structure APIError where
  status : Nat
  code : Nat
  message : String
deriving DecidableEq, Repr

/-- A failure condition reaching the error-handling layer: the two mapped
HTTP failures, an `APIError`, or any other (unmapped) exception kind, named
by `other`. -/
inductive Failure where
  | notFound
  | rateLimited
  | api (e : APIError)
  | other (n : String)
deriving DecidableEq, Repr

/-- A wire-level response: status plus body. -/
structure Response where
  status : Nat
  body : String
deriving DecidableEq, Repr

/-- Modelled from the spec: `error_404_handler` of
`fastapi.utils.error_handlers` is not in the source tree; the spec maps
NotFound to a structured 404-equivalent "resource not found" response. -/
def error_404_handler : Response := ⟨404, "resource not found"⟩

/-- Modelled from the spec: `error_429_handler` of
`fastapi.utils.error_handlers` is not in the source tree; the spec maps
RateLimited to a structured 429-equivalent "too many requests" response. -/
def error_429_handler : Response := ⟨429, "too many requests"⟩

/-- Modelled from the spec: `error_handler` of
`fastapi.utils.error_handlers` is not in the source tree; the spec maps an
ApplicationError to a response carrying its status/code/message triple. -/
def error_handler (e : APIError) : Response :=
  ⟨e.status, toString e.code ++ ": " ++ e.message⟩

/-- Flask's default response for an exception no registered handler
matches: the generic 500 Internal Server Error body. -/
def internal_server_error : Response := ⟨500, "internal server error"⟩

/-- Whether a registered handler key matches a failure (Flask's handler
lookup at its boundary: HTTP failures match their status code, `APIError`
instances match the `APIError` class key). -/
def keyMatches : HandlerKey → Failure → Bool
  | .httpCode n, .notFound => n == 404
  | .httpCode n, .rateLimited => n == 429
  | .apiExc, .api _ => true
  | _, _ => false

/-- Invokes the handler registered under a key on a failure. -/
def applyHandler : HandlerKey → Failure → Response
  | .httpCode 404, _ => error_404_handler
  | .httpCode 429, _ => error_429_handler
  | .apiExc, .api e => error_handler e
  | _, _ => internal_server_error

/-- Flask's error dispatch at its boundary: consult the registered handlers
for one matching the failure; an unhandled exception kind produces the
generic 500 response. -/
def dispatch_failure (registered : List HandlerKey) (f : Failure) : Response :=
  match registered.find? (fun k => keyMatches k f) with
  | some k => applyHandler k f
  | none => internal_server_error

/-- Database statement parameters, as tested by the after-hook:
`isinstance(parameters, dict)` keyed shape, `isinstance(parameters, tuple)`
positional shape, or any other shape (which leaves the rendering empty). -/
inductive Params where
  | dict (items : List (String × Value))
  | tuple (items : List Value)
  | otherShape
deriving DecidableEq, Repr

/-- Source lines 81-86: the parameter rendering of `after_cursor_execute`.
A dict renders as repeated `'{}:{}, '.format(name, val)`; a tuple renders as
`', '.join(str(item) ...)`; any other shape leaves `str_params = ''`. -/
def renderParams : Params → String
  | .dict items => items.foldl (fun acc p => acc ++ p.1 ++ ":" ++ pyStr p.2 ++ ", ") ""
  | .tuple items => String.intercalate ", " (items.map pyStr)
  | .otherShape => ""

/-- Source line 88: `statement.replace('\n', ' ')` — the pattern is a single
character, so the replacement is character-wise. -/
def collapseNewlines (s : String) : String :=
  ⟨s.data.map (fun c => if c = '\n' then ' ' else c)⟩

/-- The SQLAlchemy execution context as the two hooks use it: the
`query_start_ts` attribute, absent until `before_cursor_execute` sets it
(reading an absent attribute raises `AttributeError`). -/
structure ExecContext where
  query_start_ts : Option Int := none
deriving DecidableEq, Repr

/-- Source lines 71-74: `before_cursor_execute` stamps the current wall
clock in integer milliseconds (`int(time.time() * 1000)`, passed here as
`now`) onto the context. -/
def before_cursor_execute (now : Int) (ctx : ExecContext) : ExecContext :=
  { ctx with query_start_ts := some now }

/-- Source lines 77-90: `after_cursor_execute` computes
`cost = int(time.time() * 1000) - context.query_start_ts` (raising
`AttributeError` when the attribute was never set — the function body has no
exception handling), renders the parameters, collapses newlines in the
statement and emits exactly one debug log line.  The emitted lines are
returned; a raised exception is the `error` case. -/
def after_cursor_execute (now : Int) (statement : String) (ps : Params)
    (ctx : ExecContext) : Except String (List (Level × String)) :=
  match ctx.query_start_ts with
  | none => .error "AttributeError: query_start_ts"
  | some start =>
      let cost := now - start
      let str_params := renderParams ps
      let str_statement := collapseNewlines statement
      let sql_log := "[cost: " ++ toString cost ++ "ms]sql: " ++ str_statement
                      ++ ", params: " ++ str_params
      .ok [(Level.debug, sql_log)]

/-- SQLAlchemy's cursor-event dispatch at its boundary: the before-hook
fires, the statement executes (its outcome is `run`), and on success the
after-hook fires; an exception raised by the after-hook propagates to the
caller in place of the statement's result. -/
def execute_with_hooks {α : Type} (t1 t2 : Int) (statement : String) (ps : Params)
    (ctx : ExecContext) (run : Except String α) :
    Except String α × List (Level × String) :=
  let ctx1 := before_cursor_execute t1 ctx
  match run with
  | .error e => (.error e, [])
  | .ok r =>
      match after_cursor_execute t2 statement ps ctx1 with
      | .ok recs => (.ok r, recs)
      | .error e => (.error e, [])

/-- The `app` global as deferred work sees it: the holder of the loaded
configuration. -/
structure App where
  config : ConfigMap
deriving DecidableEq, Repr

/-- Python's `with app.app_context():` at its boundary: entering pushes the
app onto the ambient context stack, the body runs against the pushed stack,
and exiting pops on every exit path — after a normal return and after an
exception, which is then re-raised. -/
def pyWith {α : Type} (theApp : App) (stack : List App)
    (body : List App → Except String α) : Except String α × List App :=
  match body (theApp :: stack) with
  | .ok v => (.ok v, stack)
  | .error e => (.error e, stack)

/-- Source lines 134-139: `ContextTask.__call__` runs the wrapped task body
inside `with app.app_context():`.  The worker's ambient context stack before
the call is `stack`; the result pairs the task's outcome with the stack
after the call. -/
def ContextTask_call {α : Type} (theApp : App) (unit : List App → Except String α)
    (stack : List App) : Except String α × List App :=
  pyWith theApp stack unit

/-- A deferred unit that reads one configuration value from the ambient
application context (`current_app.config.get(key)`); outside any application
context this raises. -/
def readConfigTask (key : String) : List App → Except String (Option Value)
  | [] => .error "RuntimeError: working outside of application context"
  | a :: _ => .ok (configGet a.config key)

/-- Helper: `collapseNewlines` leaves no newline character in its output. -/
theorem collapseNewlines_no_newline (s : String) :
    '\n' ∉ (collapseNewlines s).data := by
  intro hmem
  simp only [collapseNewlines, List.mem_map] at hmem
  obtain ⟨c, _, hc⟩ := hmem
  by_cases h : c = '\n' <;> simp [h] at hc

/-- C1 counterexample: on a successful bootstrap (default mode, empty module
list) task wiring (`init_celery`) completes *before* route discovery
(`register_blueprints`), so route discovery is not a step that precedes
background-task wiring, let alone the last one. -/
theorem init_app_route_discovery_not_before_celery_cex :
    (init_app none []).2 = none ∧
    (init_app none []).1.trace.indexOf Step.celery <
      (init_app none []).1.trace.indexOf Step.blueprints ∧
    ¬ ((init_app none []).1.trace.indexOf Step.blueprints <
        (init_app none []).1.trace.indexOf Step.celery) := by
  decide

/-- C1 amended: `init_app` performs its steps in the fixed source order
config, logger, error handlers, request hooks, db, redis, sentry, celery,
limiter, cache, blueprint discovery, signal-handler registration — so task
wiring (celery) runs before route discovery, and route discovery is the last
step before signal-handler registration. -/
theorem init_app_step_order :
    (init_app none []).1.trace = fullBootOrder ∧
    (init_app (some "dev") []).1.trace = fullBootOrder ∧
    (init_app (some "prod") []).1.trace = fullBootOrder ∧
    (init_app (some "test") []).1.trace = fullBootOrder ∧
    (init_app none []).2 = none ∧
    fullBootOrder.indexOf Step.celery < fullBootOrder.indexOf Step.blueprints ∧
    fullBootOrder.indexOf Step.blueprints + 1 = fullBootOrder.indexOf Step.signals := by
  decide

/-- C5: an unknown environment discriminator makes `init_config` raise
`KeyError` and the bootstrap aborts with the state untouched: no step ever
completed and the logger was never initialized. -/
theorem unknown_mode_fails_before_logger (m : String) (mods : List PyModule)
    (h1 : m ≠ "dev") (h2 : m ≠ "prod") (h3 : m ≠ "test") :
    init_app (some m) mods = (initialState, some (Fault.keyError m)) ∧
    (init_app (some m) mods).1.logger_initialized = false ∧
    (init_app (some m) mods).1.trace = [] := by
  have hc : config m = none := by simp [config, h1, h2, h3]
  have hic : init_config (some m) initialState = .error (.keyError m) := by
    simp [init_config, hc]
  have hmain : init_app (some m) mods = (initialState, some (Fault.keyError m)) := by
    simp [init_app, bootSteps, runSteps, hic]
  refine ⟨hmain, ?_, ?_⟩ <;> rw [hmain] <;> rfl

/-- C5 witness: the discriminator `"bogus"` aborts the bootstrap before the
logger step. -/
theorem unknown_mode_fails_before_logger_witness :
    ("bogus" ≠ "dev" ∧ "bogus" ≠ "prod" ∧ "bogus" ≠ "test") ∧
    (init_app (some "bogus") [] = (initialState, some (Fault.keyError "bogus")) ∧
     (init_app (some "bogus") []).1.logger_initialized = false ∧
     (init_app (some "bogus") []).1.trace = []) :=
  ⟨⟨by decide, by decide, by decide⟩,
   unknown_mode_fails_before_logger "bogus" [] (by decide) (by decide) (by decide)⟩

/-- C10: with `FASTAPI_MODE` absent from the environment, `init_config`
defaults the mode to `"dev"`, loads the dev profile, and the bootstrap runs
all twelve steps to completion without fault. -/
theorem missing_mode_selects_dev :
    (init_app none []).2 = none ∧
    (init_app none []).1.config = devConfig ∧
    (init_app none []).1.logger_initialized = true ∧
    (init_app none []).1.trace = fullBootOrder := by
  decide

/-- C2 counterexample: two modules whose blueprints both claim the url
prefix `/a` are both registered with no fault — there is no prefix-collision
check anywhere on the registration path. -/
theorem duplicate_path_registers_both_cex :
    (register_blueprints
        [⟨"fastapi.api.x", some ⟨"x", some "/a"⟩⟩,
         ⟨"fastapi.api.y", some ⟨"y", some "/a"⟩⟩] initialState).map
      (fun s => s.blueprints)
      = .ok [⟨"x", some "/a"⟩, ⟨"y", some "/a"⟩] := rfl

/-- C2 amended: a module without the routable attribute is silently skipped
(no fault, registry unchanged), and any two modules with distinctly named
blueprints are both registered whatever their url prefixes — equal or
distinct — so a second registration under an already-bound prefix succeeds
instead of raising a collision fault. -/
theorem register_blueprints_skip_and_register (st : AppState)
    (hbp : st.blueprints = []) (mskip : PyModule) (hskip : mskip.bp = none)
    (n1 n2 p1 p2 : String) (hne : n1 ≠ n2) :
    (register_blueprints [mskip] st).map (fun s => s.blueprints) = .ok [] ∧
    (register_blueprints
        [⟨"fastapi.api.m1", some ⟨n1, some p1⟩⟩,
         ⟨"fastapi.api.m2", some ⟨n2, some p2⟩⟩] st).map (fun s => s.blueprints)
      = .ok [⟨n1, some p1⟩, ⟨n2, some p2⟩] := by
  constructor
  · simp [register_blueprints, registerAll, hskip, hbp, Except.map]
  · simp [register_blueprints, registerAll, register_blueprint, hbp, hne, Except.map]

/-- C2 witness: a capability-less module is skipped, and the blueprints
`a1` and `a2`, both under prefix `/a`, are both registered. -/
theorem register_blueprints_skip_and_register_witness :
    (initialState.blueprints = []) ∧
    ((⟨"fastapi.api.util", none⟩ : PyModule).bp = none) ∧ ("a1" ≠ "a2") ∧
    ((register_blueprints [⟨"fastapi.api.util", none⟩] initialState).map
        (fun s => s.blueprints) = .ok [] ∧
     (register_blueprints
         [⟨"fastapi.api.m1", some ⟨"a1", some "/a"⟩⟩,
          ⟨"fastapi.api.m2", some ⟨"a2", some "/a"⟩⟩] initialState).map
        (fun s => s.blueprints)
       = .ok [⟨"a1", some "/a"⟩, ⟨"a2", some "/a"⟩]) :=
  ⟨rfl, rfl, by decide,
   register_blueprints_skip_and_register initialState rfl
     ⟨"fastapi.api.util", none⟩ rfl "a1" "a2" "/a" "/a" (by decide)⟩

/-- C3 counterexample: called on a context whose `query_start_ts` attribute
was never set, the after-hook raises `AttributeError` — the raise is
propagated, not logged and swallowed, so the hook is not exception-free for
every input. -/
theorem after_cursor_execute_raises_cex :
    after_cursor_execute 1000 "SELECT 1" Params.otherShape ({} : ExecContext)
      = .error "AttributeError: query_start_ts" := rfl

/-- C3 amended: the hook body contains no exception handling, so a failure
inside it propagates and replaces the statement's outcome; however, whenever
`before_cursor_execute` has stamped the context first — as the event
dispatch guarantees — the after-hook succeeds, and the statement's result or
error is returned to the caller unaltered. -/
theorem after_cursor_execute_paired_safe {α : Type} (t1 t2 : Int)
    (statement : String) (ps : Params) (ctx : ExecContext)
    (run : Except String α) :
    (execute_with_hooks t1 t2 statement ps ctx run).1 = run ∧
    (after_cursor_execute t2 statement ps
        (before_cursor_execute t1 ctx)).toOption.isSome = true := by
  cases run <;>
    simp [execute_with_hooks, after_cursor_execute, before_cursor_execute,
          Except.toOption]

/-- C4: after `init_error_handlers` the registered keys are exactly 404, 429
and `APIError`; any other failure kind matches none of them and Flask's
dispatch falls through to the generic 500 response — no unmapped failure is
dropped. -/
theorem unmapped_failure_gets_generic_500 (n : String) :
    dispatch_failure registeredHandlerKeys (Failure.other n)
      = internal_server_error := rfl

/-- C6: `ContextTask.__call__` runs the unit with the carried app pushed as
the ambient context for the duration of the call, and the ambient stack is
restored to its prior state on every exit path — both when the unit returns
and when it raises. -/
theorem contextTask_teardown_all_paths {α : Type} (theApp : App)
    (unit : List App → Except String α) (stack : List App) :
    (ContextTask_call theApp unit stack).1 = unit (theApp :: stack) ∧
    (ContextTask_call theApp unit stack).2 = stack := by
  cases h : unit (theApp :: stack) <;> simp [ContextTask_call, pyWith, h]

/-- C7: a deferred unit that reads a configuration value, executed through
`ContextTask.__call__` on any worker stack — including an empty one, long
after the scheduling request finished — observes exactly the value the
scheduling request observes in `app.config`. -/
theorem contextTask_config_roundtrip (theApp : App) (key : String)
    (workerStack : List App) :
    (ContextTask_call theApp (readConfigTask key) workerStack).1
      = .ok (configGet theApp.config key) := by
  simp [ContextTask_call, pyWith, readConfigTask]

/-- C8: on a before/after instrumented execution the after-hook emits
exactly one log line, at debug severity, whose cost is the after-timestamp
minus the before-timestamp in integer milliseconds — non-negative when the
clock did not go backwards — whose statement text has every newline replaced
by a space, and whose parameter rendering covers both the keyed and the
positional shape (`ps` ranges over both). -/
theorem after_cursor_execute_log_line (t1 t2 : Int) (h : t1 ≤ t2)
    (statement : String) (ps : Params) (ctx : ExecContext) :
    after_cursor_execute t2 statement ps (before_cursor_execute t1 ctx)
      = .ok [(Level.debug,
              "[cost: " ++ toString (t2 - t1) ++ "ms]sql: "
                ++ collapseNewlines statement ++ ", params: " ++ renderParams ps)] ∧
    0 ≤ t2 - t1 ∧
    '\n' ∉ (collapseNewlines statement).data := by
  refine ⟨rfl, by omega, collapseNewlines_no_newline statement⟩

/-- C8 witness: a concrete instrumented execution at timestamps 3 and 10
with a keyed parameter and a statement containing a newline. -/
theorem after_cursor_execute_log_line_witness :
    (3 : Int) ≤ 10 ∧
    (after_cursor_execute 10 "SELECT\n1" (Params.dict [("id", Value.int 7)])
        (before_cursor_execute 3 ({} : ExecContext))
      = .ok [(Level.debug,
              "[cost: " ++ toString ((10 : Int) - 3) ++ "ms]sql: "
                ++ collapseNewlines "SELECT\n1" ++ ", params: "
                ++ renderParams (Params.dict [("id", Value.int 7)]))] ∧
     0 ≤ (10 : Int) - 3 ∧
     '\n' ∉ (collapseNewlines "SELECT\n1").data) :=
  ⟨by decide,
   after_cursor_execute_log_line 3 10 (by decide) "SELECT\n1"
     (Params.dict [("id", Value.int 7)]) ({} : ExecContext)⟩

/-- C9: when `ENABLE_SENTRY` is absent from the configuration or set to
`False`, `init_sentry` still succeeds and still invokes the Sentry
integration, handing it whatever `SENTRY_DSN` the configuration holds — the
disabled check is a no-op (`if not enable_sentry: pass`) and the
collaborator's setup is not skipped. -/
theorem init_sentry_invoked_when_disabled (st : AppState)
    (_h : configGet st.config "ENABLE_SENTRY" = none ∨
          configGet st.config "ENABLE_SENTRY" = some (Value.bool false)) :
    (init_sentry st).map (fun s => s.sentry)
      = .ok (some (configGet st.config "SENTRY_DSN")) := by
  simp [init_sentry, Except.map]

/-- C9 witness: on the fresh state, whose configuration has no
`ENABLE_SENTRY` key, the Sentry integration is nevertheless initialized with
the configuration's (absent) dsn. -/
theorem init_sentry_invoked_when_disabled_witness :
    (configGet initialState.config "ENABLE_SENTRY" = none ∨
     configGet initialState.config "ENABLE_SENTRY" = some (Value.bool false)) ∧
    (init_sentry initialState).map (fun s => s.sentry)
      = .ok (some (configGet initialState.config "SENTRY_DSN")) :=
  ⟨Or.inl rfl, init_sentry_invoked_when_disabled initialState (Or.inl rfl)⟩
